import Mathlib

/-!
Verification of the socketserver Tcl extension (src/generic/socketserver.c).

The development gives a shallow embedding of the C source:

* the per-port registry (`socketserver_getPort`, a singly linked list of
  `socketserver_port` records traversed under one global mutex) becomes a
  `List Port` with an explicit find/append/update discipline;
* the SCM_RIGHTS socketpair transport (`send_fd` / `recv_fd`) becomes a
  `Transport` value: either a FIFO queue of pending descriptors or a broken
  transport, with `recv_fd` scanning control-message headers exactly as the
  C loop does;
* the acceptor thread (`socketserver_thread`) becomes a startup function
  (bind outcome) plus a loop body folded over a list of accept outcomes;
* the event handler (`socketserver_EventProc`) becomes a state transformer
  on `BridgeState` (guard flag, transport, trace of callback invocations);
* the two subcommands of `socketserverObjCmd` become `socketserverObjCmd_server`
  and `socketserverObjCmd_client`, returning a Tcl result code, the updated
  registry, and a record of the externally visible effects (threads started,
  channel handlers installed, ...).

Machine integers are modelled as `Nat`/`Int`; file descriptors returned by
`accept`/`socketpair` are nonnegative, and `recv_fd` uses `-1` as its error
sentinel exactly as the source does.
-/

namespace SocketServerTcl

/-- A standard Tcl result code (`TCL_OK` / `TCL_ERROR`). -/
inductive TclResult where
  | ok
  | error
deriving DecidableEq, Repr

/-- `socketserver_thread_args`: TCP port and the socketpair write side.
`tin` is the field `in` of the C struct (`in` is a Lean keyword);
`-1` means the socketpair has not been created yet. -/
structure ThreadArgs where
  port : Nat
  tin : Int
deriving DecidableEq, Repr

/-- One `socketserver_port` registry entry.  `out` is the read side of the
socketpair; `active` is the de-duplication guard; `have_channel` is the flag
tested (and, in the source, re-assigned to `0`) by the client-registration
branch; `handlerInstalls` counts the externally visible
`Tcl_MakeFileChannel` + `Tcl_CreateChannelHandler` installations performed on
this entry (an instrumentation of the external Tcl calls, not a C field). -/
structure Port where
  targs : ThreadArgs
  out : Int
  active : Nat
  have_channel : Nat
  handlerInstalls : Nat
  scriptLen : Nat
  callback : Option String
deriving DecidableEq, Repr

/-- The freshly `memset`-zeroed entry made by `socketserver_getPort`, after
`p->targs.port = port; p->targs.in = -1;`. -/
def newPortEntry (port : Nat) : Port :=
  { targs := { port := port, tin := -1 }
    out := 0
    active := 0
    have_channel := 0
    handlerInstalls := 0
    scriptLen := 0
    callback := none }

/-- Default-port resolution at the top of `socketserver_getPort`:
`if (port == 0) { if (clientData->ports) port = clientData->ports->targs.port; }`.
The head of the list is the first registered port (new entries are appended
at the tail). -/
def resolvePort (ports : List Port) (port : Nat) : Nat :=
  if port = 0 then
    match ports with
    | [] => 0
    | p :: _ => p.targs.port
  else port

/-- The linked-list search of `socketserver_getPort`: first entry whose
`targs.port` equals the (already resolved) port. -/
def findPort : List Port → Nat → Option Port
  | [], _ => none
  | p :: rest, q => if p.targs.port = q then some p else findPort rest q

/-- In-place mutation through the pointer returned by the list search:
replace the first entry keyed by `q`. -/
def updatePort : List Port → Nat → Port → List Port
  | [], _, _ => []
  | p :: rest, q, d => if p.targs.port = q then d :: rest else p :: updatePort rest q d

/-- `socketserver_getPort(clientData, port, allocate)`: resolve the default
port, return an exact match if present; otherwise, in create mode, append a
fresh zeroed entry keyed by the resolved port, and in find mode report
not-found (`NULL`).  Returns the (possibly extended) registry and the entry. -/
def socketserver_getPort (ports : List Port) (port : Nat) (allocate : Bool) :
    List Port × Option Port :=
  let rp := resolvePort ports port
  match findPort ports rp with
  | some p => (ports, some p)
  | none =>
      if allocate then (ports ++ [newPortEntry rp], some (newPortEntry rp))
      else (ports, none)

/-! ## The SCM_RIGHTS transport -/

/-- `SOL_SOCKET` (value irrelevant; only equality matters). -/
def SOL_SOCKET : Nat := 1

/-- `SCM_RIGHTS` (value irrelevant; only equality matters). -/
def SCM_RIGHTS : Nat := 1

/-- One control-message header of a received message: level, type and the
file descriptors carried in its data (`count` in the C code is the length). -/
structure CMsg where
  cmsg_level : Nat
  cmsg_type : Nat
  fds : List Nat
deriving DecidableEq, Repr

/-- Outcome of the `recvmsg` call inside `recv_fd`: `-1` (error or no data on
the non-blocking socket), or a message with its control headers. -/
inductive RecvMsgResult where
  | err
  | msg (headers : List CMsg)
deriving DecidableEq, Repr

/-- The state of one socketpair: either a FIFO queue of pending descriptors
(one per `sendmsg`, since `send_fd` sends exactly one fd per message), or a
broken transport on which every call fails. -/
inductive Transport where
  | broken
  | queue (fds : List Nat)
deriving DecidableEq, Repr

/-- The header scan loop of `recv_fd`: first SCM_RIGHTS header with a
positive fd count yields its first descriptor; otherwise `-1`. -/
def scanHeaders : List CMsg → Int
  | [] => -1
  | h :: rest =>
      if h.cmsg_level = SOL_SOCKET ∧ h.cmsg_type = SCM_RIGHTS then
        match h.fds with
        | [] => scanHeaders rest
        | f :: _ => (f : Int)
      else scanHeaders rest

/-- `recv_fd(sock)`: `-1` if `recvmsg` failed, else the result of scanning
the control headers for an SCM_RIGHTS payload. -/
def recv_fd (r : RecvMsgResult) : Int :=
  match r with
  | .err => -1
  | .msg headers => scanHeaders headers

/-- One `recvmsg` on the transport: a broken transport fails; an empty queue
fails (the socket is non-blocking, `EAGAIN`); otherwise the head message is
delivered, carrying one SCM_RIGHTS descriptor, and dequeued. -/
def transportRecv : Transport → RecvMsgResult × Transport
  | .broken => (.err, .broken)
  | .queue [] => (.err, .queue [])
  | .queue (f :: rest) => (.msg [⟨SOL_SOCKET, SCM_RIGHTS, [f]⟩], .queue rest)

/-- `send_fd(sock, fd)`: enqueue one descriptor-bearing message; the C
function returns `0` for success and `1` for error, modelled as a `Bool`
(`true` = success).  A broken transport drops the descriptor. -/
def send_fd : Transport → Nat → Transport × Bool
  | .broken, _ => (.broken, false)
  | .queue q, fd => (.queue (q ++ [fd]), true)

/-! ## The acceptor thread -/

/-- One return from `accept(2)`: a new descriptor, or `-1` with `errno`
either `EINTR` or something else. -/
inductive AcceptResult where
  | success (fd : Nat)
  | failEINTR
  | failOther
deriving DecidableEq, Repr

/-- What one iteration of the accept loop does: silent retry (EINTR),
`debug("accept failed")` and retry, or a `send_fd` of the accepted
descriptor (with the send's success flag) followed by the next iteration. -/
inductive LoopAction where
  | silentRetry
  | logged
  | sent (fd : Nat) (ok : Bool)
deriving DecidableEq, Repr

/-- The body of the `while (1)` loop in `socketserver_thread`. -/
def acceptIter (t : Transport) : AcceptResult → Transport × LoopAction
  | .failOther => (t, .logged)
  | .failEINTR => (t, .silentRetry)
  | .success fd =>
      let s := send_fd t fd
      (s.1, .sent fd s.2)

/-- The accept loop folded over a finite prefix of accept outcomes; it
consumes every outcome (the C loop has no exit) and records the action taken
for each. -/
def acceptLoop : Transport → List AcceptResult → Transport × List LoopAction
  | t, [] => (t, [])
  | t, r :: rs =>
      let step := acceptIter t r
      let rest := acceptLoop step.1 rs
      (rest.1, step.2 :: rest.2)

/-- The descriptors of the successful accepts, in order. -/
def acceptedFds : List AcceptResult → List Nat
  | [] => []
  | .success fd :: rs => fd :: acceptedFds rs
  | .failEINTR :: rs => acceptedFds rs
  | .failOther :: rs => acceptedFds rs

/-- The classification the accept loop gives each outcome: an `EINTR`
failure is silently retried, any other failure is logged and retried, and a
success leads to a `send_fd` of the accepted descriptor (with whatever
success flag the send produced) — no outcome has an exit action. -/
def ActionMatches (r : AcceptResult) (a : LoopAction) : Prop :=
  match r with
  | .failEINTR => a = .silentRetry
  | .failOther => a = .logged
  | .success fd => ∃ ok, a = .sent fd ok

/-- Whether `socketserver_thread` reached its accept loop or returned
`(void *)1` beforehand. -/
inductive ThreadOutcome where
  | exitedBeforeLoop
  | enteredLoop
deriving DecidableEq, Repr

/-- `socketserver_thread`: create the TCP socket, bind (a failure returns
`(void *)1` and ends the thread), `listen` (whose result the source never
checks — `listenOk` is accepted and ignored), then run the accept loop. -/
def socketserver_thread (bindOk : Bool) (listenOk : Bool) (t : Transport)
    (rs : List AcceptResult) : ThreadOutcome × Transport × List LoopAction :=
  if bindOk then
    let run := acceptLoop t rs
    (.enteredLoop, run.1, run.2)
  else
    (.exitedBeforeLoop, t, [])

/-! ## The event handler (consumer bridge) -/

/-- What one `socketserver_EventProc` call did: ignored a stale event
(guard down), found no data (failed `recv_fd`, guard re-armed), or drained
one descriptor and invoked the callback. -/
inductive DrainOutcome where
  | ignored
  | noData
  | drained (fd : Int)
deriving DecidableEq, Repr

/-- The state `socketserver_EventProc` acts on: the entry's `active` guard,
the socketpair read side, and the trace of callback invocations (the
descriptor each callback was handed, standing for the `sockN` channel name). -/
structure BridgeState where
  active : Nat
  transport : Transport
  callbacks : List Int
deriving DecidableEq, Repr

/-- `socketserver_EventProc`: under the mutex, a down guard makes the call a
no-op; otherwise the guard is dropped and one `recv_fd` is attempted.  A
`-1` receive re-arms the guard and returns `TCL_OK`; a received descriptor is
wrapped in a channel and handed to the callback script (the trace records
it), with the guard left down. -/
def socketserver_EventProc (s : BridgeState) : TclResult × BridgeState × DrainOutcome :=
  if s.active = 0 then (.ok, s, .ignored)
  else
    let rcv := transportRecv s.transport
    let fd := recv_fd rcv.1
    if fd = -1 then
      (.ok, { s with active := 1, transport := rcv.2 }, .noData)
    else
      (.ok, { s with active := 0, transport := rcv.2, callbacks := s.callbacks ++ [fd] },
        .drained fd)

/-- Iterate `socketserver_EventProc` (one call per queued readiness event). -/
def eventLoop : Nat → BridgeState → BridgeState
  | 0, s => s
  | k + 1, s => eventLoop k (socketserver_EventProc s).2.1

/-- Iterated events with the guard re-armed before each call (the effect of a
fresh `client` registration preceding each readiness event). -/
def rearmLoop : Nat → BridgeState → BridgeState
  | 0, s => s
  | k + 1, s => rearmLoop k (socketserver_EventProc { s with active := 1 }).2.1

/-! ## The `socketserver` command -/

/-- The OS outcomes the `server` branch depends on: whether `socketpair`
succeeds (and the two descriptors it returns) and whether `pthread_create`
succeeds. -/
structure ServerEnv where
  socketpairOk : Bool
  threadCreateOk : Bool
  sockFd0 : Nat
  sockFd1 : Nat
deriving DecidableEq, Repr

/-- Externally visible effects of one `server` call. -/
structure ServerEffects where
  socketpairsCreated : Nat
  threadsStarted : Nat
deriving DecidableEq, Repr

/-- The `data->targs.in == -1` branch of the `server` subcommand: create the
socketpair (failure is a synchronous `TCL_ERROR` before any field is
assigned), store the two descriptors, then start the acceptor thread
(failure is a synchronous `TCL_ERROR`, with the descriptors already stored). -/
def serverStart (env : ServerEnv) (ports : List Port) (rp : Nat) (data : Port) :
    TclResult × List Port × ServerEffects :=
  if env.socketpairOk = false then (.error, ports, ⟨0, 0⟩)
  else
    let d := { data with
      targs := { data.targs with tin := (env.sockFd0 : Int) }
      out := (env.sockFd1 : Int) }
    let ports2 := updatePort ports rp d
    if env.threadCreateOk = false then (.error, ports2, ⟨1, 0⟩)
    else (.ok, ports2, ⟨1, 1⟩)

/-- The `server <port>` subcommand of `socketserverObjCmd`: get-or-create the
entry for the resolved port; if its socketpair does not exist yet
(`targs.in == -1`, always true for a freshly created entry), create it and
start the acceptor thread; otherwise do nothing and return `TCL_OK`. -/
def socketserverObjCmd_server (env : ServerEnv) (ports : List Port) (port : Nat) :
    TclResult × List Port × ServerEffects :=
  let rp := resolvePort ports port
  match findPort ports rp with
  | some data =>
      if data.targs.tin = -1 then serverStart env ports rp data
      else (.ok, ports, ⟨0, 0⟩)
  | none => serverStart env (ports ++ [newPortEntry rp]) rp (newPortEntry rp)

/-- Externally visible effects of one `client` call: whether the
make-channel branch ran, how many channel handlers it installed, and whether
the immediate `socketserver_readable` poll was queued. -/
structure ClientEffects where
  madeChannel : Bool
  handlersInstalled : Nat
  queuedEvent : Bool
deriving DecidableEq, Repr

/-- The field updates the `client` subcommand performs on the found entry:
record the callback and script length, run the `!data->have_channel` branch
(which assigns `have_channel = 0` — the literal assignment of the source —
and installs a fresh channel handler), then arm the guard. -/
def clientUpdate (data : Port) (cb : String) : Port :=
  let d1 := { data with callback := some cb, scriptLen := cb.length + 80 }
  let d2 :=
    if d1.have_channel = 0 then
      { d1 with have_channel := 0, handlerInstalls := d1.handlerInstalls + 1 }
    else d1
  { d2 with active := 1 }

/-- The `client [port] handler` subcommand of `socketserverObjCmd`: look the
port up without creating (`allocate = 0`); a missing entry is a synchronous
`TCL_ERROR` with no state change; otherwise update the entry per
`clientUpdate` and report the effects. -/
def socketserverObjCmd_client (ports : List Port) (port : Nat) (cb : String) :
    TclResult × List Port × ClientEffects :=
  let rp := resolvePort ports port
  match findPort ports rp with
  | none => (.error, ports, ⟨false, 0, false⟩)
  | some data =>
      (.ok, updatePort ports rp (clientUpdate data cb),
        ⟨data.have_channel == 0, if data.have_channel = 0 then 1 else 0, true⟩)

/-- The entry for port `rp` as it stands right after a successful first
`server` registration: socketpair descriptors stored, acceptor started. -/
def startedEntry (rp : Nat) (env : ServerEnv) : Port :=
  { newPortEntry rp with
    targs := { port := rp, tin := (env.sockFd0 : Int) }
    out := (env.sockFd1 : Int) }

/-! ## Registry lemmas -/

theorem findPort_some_key {ports : List Port} {q : Nat} {p : Port}
    (h : findPort ports q = some p) : p.targs.port = q := by
  induction ports with
  | nil => simp [findPort] at h
  | cons a rest ih =>
      by_cases ha : a.targs.port = q
      · simp [findPort, ha] at h
        subst h
        exact ha
      · simp [findPort, ha] at h
        exact ih h

theorem findPort_eq_none_iff {ports : List Port} {q : Nat} :
    findPort ports q = none ↔ ∀ p ∈ ports, p.targs.port ≠ q := by
  induction ports with
  | nil => simp [findPort]
  | cons a rest ih =>
      by_cases ha : a.targs.port = q
      · simp [findPort, ha]
      · simp [findPort, ha, ih]

theorem findPort_append_of_none {ports : List Port} {q : Nat} (l2 : List Port)
    (h : findPort ports q = none) : findPort (ports ++ l2) q = findPort l2 q := by
  induction ports with
  | nil => simp
  | cons a rest ih =>
      by_cases ha : a.targs.port = q
      · simp [findPort, ha] at h
      · simp [findPort, ha] at h ⊢
        exact ih h

theorem updatePort_append_of_none {ports : List Port} {q : Nat} {e d : Port}
    (h : findPort ports q = none) (he : e.targs.port = q) :
    updatePort (ports ++ [e]) q d = ports ++ [d] := by
  induction ports with
  | nil => simp [updatePort, he]
  | cons a rest ih =>
      by_cases ha : a.targs.port = q
      · simp [findPort, ha] at h
      · simp [findPort, ha] at h
        simp [updatePort, ha, ih h]

theorem updatePort_keys {ports : List Port} {q : Nat} {d : Port}
    (hd : d.targs.port = q) :
    (updatePort ports q d).map (fun p => p.targs.port) =
      ports.map (fun p => p.targs.port) := by
  induction ports with
  | nil => simp [updatePort]
  | cons a rest ih =>
      by_cases ha : a.targs.port = q
      · simp [updatePort, ha, hd]
      · simp [updatePort, ha, ih]

theorem resolvePort_eq_of_keys {l1 l2 : List Port} (port : Nat)
    (h : l1.map (fun p => p.targs.port) = l2.map (fun p => p.targs.port)) :
    resolvePort l1 port = resolvePort l2 port := by
  cases l1 with
  | nil =>
      cases l2 with
      | nil => rfl
      | cons b t2 => simp at h
  | cons a t1 =>
      cases l2 with
      | nil => simp at h
      | cons b t2 =>
          simp at h
          simp [resolvePort, h.1]

theorem resolvePort_updatePort {ports : List Port} {q : Nat} {d : Port} (port : Nat)
    (hd : d.targs.port = q) :
    resolvePort (updatePort ports q d) port = resolvePort ports port :=
  resolvePort_eq_of_keys port (updatePort_keys hd)

theorem findPort_updatePort_self {ports : List Port} {q : Nat} {data d : Port}
    (h : findPort ports q = some data) (hd : d.targs.port = q) :
    findPort (updatePort ports q d) q = some d := by
  induction ports with
  | nil => simp [findPort] at h
  | cons a rest ih =>
      by_cases ha : a.targs.port = q
      · simp [updatePort, ha, findPort, hd]
      · simp [findPort, ha] at h
        simp [updatePort, ha, findPort, ih h]

theorem resolvePort_append (ports : List Port) (port : Nat) (e : Port)
    (he : e.targs.port = resolvePort ports port) :
    resolvePort (ports ++ [e]) port = resolvePort ports port := by
  cases ports with
  | nil =>
      by_cases h : port = 0
      · subst h
        simpa [resolvePort] using he
      · simp [resolvePort, h]
  | cons a rest =>
      by_cases h : port = 0
      · subst h
        simp [resolvePort]
      · simp [resolvePort, h]

/-! ## Event-handler lemmas -/

theorem eventProc_inactive (t : Transport) (cbs : List Int) :
    socketserver_EventProc ⟨0, t, cbs⟩ = (.ok, ⟨0, t, cbs⟩, .ignored) := rfl

theorem eventProc_empty (cbs : List Int) :
    socketserver_EventProc ⟨1, .queue [], cbs⟩ = (.ok, ⟨1, .queue [], cbs⟩, .noData) := rfl

theorem eventProc_broken (cbs : List Int) :
    socketserver_EventProc ⟨1, .broken, cbs⟩ = (.ok, ⟨1, .broken, cbs⟩, .noData) := rfl

theorem eventProc_drain (f : Nat) (rest : List Nat) (cbs : List Int) :
    socketserver_EventProc ⟨1, .queue (f :: rest), cbs⟩ =
      (.ok, ⟨0, .queue rest, cbs ++ [(f : Int)]⟩, .drained (f : Int)) := by
  have hf : ¬((f : Int) = -1) := by omega
  simp [socketserver_EventProc, transportRecv, recv_fd, scanHeaders, SOL_SOCKET,
    SCM_RIGHTS, hf]

theorem eventProc_armed_broken (a : Nat) (ha : a ≠ 0) (cbs : List Int) :
    socketserver_EventProc ⟨a, .broken, cbs⟩ = (.ok, ⟨1, .broken, cbs⟩, .noData) := by
  simp [socketserver_EventProc, ha, transportRecv, recv_fd]

theorem eventProc_armed_empty (a : Nat) (ha : a ≠ 0) (cbs : List Int) :
    socketserver_EventProc ⟨a, .queue [], cbs⟩ =
      (.ok, ⟨1, .queue [], cbs⟩, .noData) := by
  simp [socketserver_EventProc, ha, transportRecv, recv_fd]

theorem eventProc_armed_drain (a : Nat) (ha : a ≠ 0) (f : Nat) (rest : List Nat)
    (cbs : List Int) :
    socketserver_EventProc ⟨a, .queue (f :: rest), cbs⟩ =
      (.ok, ⟨0, .queue rest, cbs ++ [(f : Int)]⟩, .drained (f : Int)) := by
  have hf : ¬((f : Int) = -1) := by omega
  simp [socketserver_EventProc, ha, transportRecv, recv_fd, scanHeaders, SOL_SOCKET,
    SCM_RIGHTS, hf]

theorem eventLoop_succ (k : Nat) (s : BridgeState) :
    eventLoop (k + 1) s = eventLoop k (socketserver_EventProc s).2.1 := rfl

theorem eventLoop_inactive (k : Nat) (t : Transport) (cbs : List Int) :
    eventLoop k ⟨0, t, cbs⟩ = ⟨0, t, cbs⟩ := by
  induction k with
  | zero => rfl
  | succ n ih => simp [eventLoop, eventProc_inactive, ih]

theorem eventLoop_empty_armed (k : Nat) (cbs : List Int) :
    eventLoop k ⟨1, .queue [], cbs⟩ = ⟨1, .queue [], cbs⟩ := by
  induction k with
  | zero => rfl
  | succ n ih => simp [eventLoop, eventProc_empty, ih]

theorem rearmLoop_succ (k : Nat) (a : Nat) (t : Transport) (cbs : List Int) :
    rearmLoop (k + 1) ⟨a, t, cbs⟩ =
      rearmLoop k (socketserver_EventProc ⟨1, t, cbs⟩).2.1 := rfl

theorem rearmLoop_callbacks (k : Nat) (fds : List Nat) (a : Nat) (cbs : List Int)
    (h : fds.length ≤ k) :
    (rearmLoop k ⟨a, .queue fds, cbs⟩).callbacks =
      cbs ++ fds.map (fun (n : Nat) => (n : Int)) := by
  induction k generalizing fds a cbs with
  | zero =>
      have : fds = [] := List.length_eq_zero.mp (Nat.le_zero.mp h)
      subst this
      simp [rearmLoop]
  | succ n ih =>
      cases fds with
      | nil =>
          rw [rearmLoop_succ, eventProc_empty]
          simpa using ih [] 1 cbs (by simp)
      | cons f rest =>
          rw [rearmLoop_succ, eventProc_drain]
          have hlen : rest.length ≤ n := Nat.succ_le_succ_iff.mp (by simpa using h)
          rw [ih rest 0 (cbs ++ [(f : Int)]) hlen]
          simp

/-! ## Client-command lemmas -/

theorem clientUpdate_targs (d : Port) (cb : String) :
    (clientUpdate d cb).targs = d.targs := by
  simp only [clientUpdate]
  split <;> rfl

theorem clientUpdate_active (d : Port) (cb : String) :
    (clientUpdate d cb).active = 1 := rfl

theorem clientUpdate_fields (d : Port) (cb : String) (hch : d.have_channel = 0) :
    (clientUpdate d cb).have_channel = 0 ∧
    (clientUpdate d cb).handlerInstalls = d.handlerInstalls + 1 := by
  unfold clientUpdate
  simp [hch]

theorem clientCmd_found (ports : List Port) (port : Nat) (cb : String) (data : Port)
    (hfind : findPort ports (resolvePort ports port) = some data) :
    socketserverObjCmd_client ports port cb =
      (.ok, updatePort ports (resolvePort ports port) (clientUpdate data cb),
        ⟨data.have_channel == 0, if data.have_channel = 0 then 1 else 0, true⟩) := by
  simp only [socketserverObjCmd_client, hfind]

/-! ## Accept-loop lemmas -/

theorem acceptLoop_length (t : Transport) (rs : List AcceptResult) :
    ((acceptLoop t rs).2).length = rs.length := by
  induction rs generalizing t with
  | nil => rfl
  | cons r rest ih => simp [acceptLoop, ih]

theorem acceptLoop_forall2 (t : Transport) (rs : List AcceptResult) :
    List.Forall₂ ActionMatches rs (acceptLoop t rs).2 := by
  induction rs generalizing t with
  | nil => exact List.Forall₂.nil
  | cons r rest ih =>
      refine List.Forall₂.cons ?_ (ih _)
      cases r with
      | success fd => exact ⟨(send_fd t fd).2, rfl⟩
      | failEINTR => rfl
      | failOther => rfl

theorem acceptLoop_queue (rs : List AcceptResult) (q : List Nat) :
    (acceptLoop (.queue q) rs).1 = .queue (q ++ acceptedFds rs) := by
  induction rs generalizing q with
  | nil => simp [acceptLoop, acceptedFds]
  | cons r rest ih =>
      cases r with
      | success fd =>
          simp only [acceptLoop, acceptIter, send_fd, acceptedFds]
          rw [ih (q ++ [fd])]
          simp
      | failEINTR =>
          simp only [acceptLoop, acceptIter, acceptedFds]
          exact ih q
      | failOther =>
          simp only [acceptLoop, acceptIter, acceptedFds]
          exact ih q

/-! ## Claim theorems -/

/-- C2: for a state with exactly one pending descriptor in the channel and
the guard armed, running the drain handler twice back-to-back yields exactly
one successful drain (of that descriptor, appended to the callback trace);
the second run observes the guard down and is an idempotent no-op returning
`TCL_OK` and leaving all state unchanged — never two successful drains. -/
theorem C2_dedup_guard (f : Nat) (cbs : List Int) :
    socketserver_EventProc ⟨1, .queue [f], cbs⟩ =
      (.ok, ⟨0, .queue [], cbs ++ [(f : Int)]⟩, .drained (f : Int)) ∧
    socketserver_EventProc (socketserver_EventProc ⟨1, .queue [f], cbs⟩).2.1 =
      (.ok, (socketserver_EventProc ⟨1, .queue [f], cbs⟩).2.1, .ignored) := by
  constructor
  · exact eventProc_drain f [] cbs
  · rw [eventProc_drain f [] cbs]
    exact eventProc_inactive _ _

/-- C4 counterexample: on a broken transport with the guard armed, the drain
handler returns `TCL_OK`, re-arms the guard and reports no-data — exactly the
same result as the benign empty-channel case — rather than surfacing a
bridge-level failure as the claim states. -/
theorem C4_counterexample :
    socketserver_EventProc ⟨1, .broken, []⟩ = (.ok, ⟨1, .broken, []⟩, .noData) ∧
    socketserver_EventProc ⟨1, .queue [], []⟩ = (.ok, ⟨1, .queue [], []⟩, .noData) ∧
    TclResult.ok ≠ TclResult.error :=
  ⟨rfl, rfl, by decide⟩

/-- C4 (amended): the drain handler does not distinguish receive outcomes:
every failed receive — no pending descriptor or a broken transport — is
treated identically as benign no-data: the guard is re-armed and `TCL_OK` is
returned, so no bridge-level failure is ever surfaced and the registration
stays armed.  `recv_fd` itself collapses both a failed `recvmsg` and a
message without SCM_RIGHTS payload to the same `-1` sentinel. -/
theorem C4_recv_failure_uniform (cbs : List Int) :
    socketserver_EventProc ⟨1, .broken, cbs⟩ = (.ok, ⟨1, .broken, cbs⟩, .noData) ∧
    socketserver_EventProc ⟨1, .queue [], cbs⟩ = (.ok, ⟨1, .queue [], cbs⟩, .noData) ∧
    recv_fd .err = -1 ∧
    recv_fd (.msg []) = -1 :=
  ⟨eventProc_broken cbs, eventProc_empty cbs, rfl, rfl⟩

/-- C5: the registry lookup `socketserver_getPort` first resolves port `0` to
the first registered port when any entry exists (else keeps literal `0`),
then returns the existing entry on exact match of the resolved port; in
create mode, when no entry matches, it appends a fresh zero-initialized entry
(`targs.in = -1`, i.e. no channel yet) keyed by the resolved port; in find
mode it never creates and reports not-found. -/
theorem C5_getPort_contract (ports : List Port) (port : Nat) (alloc : Bool) :
    (port = 0 → ∀ p rest, ports = p :: rest → resolvePort ports port = p.targs.port) ∧
    (port = 0 → ports = [] → resolvePort ports port = 0) ∧
    (port ≠ 0 → resolvePort ports port = port) ∧
    (∀ d, findPort ports (resolvePort ports port) = some d →
        socketserver_getPort ports port alloc = (ports, some d)) ∧
    (findPort ports (resolvePort ports port) = none → alloc = true →
        socketserver_getPort ports port alloc =
          (ports ++ [newPortEntry (resolvePort ports port)],
            some (newPortEntry (resolvePort ports port)))) ∧
    (findPort ports (resolvePort ports port) = none → alloc = false →
        socketserver_getPort ports port alloc = (ports, none)) ∧
    (∀ q, (newPortEntry q).targs.port = q ∧ (newPortEntry q).targs.tin = -1 ∧
        (newPortEntry q).out = 0 ∧ (newPortEntry q).active = 0 ∧
        (newPortEntry q).have_channel = 0 ∧ (newPortEntry q).handlerInstalls = 0 ∧
        (newPortEntry q).scriptLen = 0 ∧ (newPortEntry q).callback = none) := by
  refine ⟨?_, ?_, ?_, ?_, ?_, ?_, ?_⟩
  · intro h0 p rest hp
    subst h0; subst hp
    rfl
  · intro h0 hp
    subst h0; subst hp
    rfl
  · intro h
    simp [resolvePort, h]
  · intro d hd
    simp [socketserver_getPort, hd]
  · intro hn ha
    subst ha
    simp [socketserver_getPort, hn]
  · intro hn ha
    subst ha
    simp [socketserver_getPort, hn]
  · intro q
    exact ⟨rfl, rfl, rfl, rfl, rfl, rfl, rfl, rfl⟩

/-- C5 witness: on the one-entry registry for port 9001, the default port 0
resolves to 9001 and the find-mode lookup returns that entry unchanged. -/
theorem C5_getPort_contract_witness :
    resolvePort [newPortEntry 9001] 0 = 9001 ∧
    socketserver_getPort [newPortEntry 9001] 0 false =
      ([newPortEntry 9001], some (newPortEntry 9001)) := by
  have h := C5_getPort_contract [newPortEntry 9001] 0 false
  exact ⟨h.1 rfl (newPortEntry 9001) [] rfl, h.2.2.2.1 (newPortEntry 9001) rfl⟩

/-- C7: a `client` registration for a port with no entry in the registry
(and, when the default port 0 is used, an empty registry) fails with
`TCL_ERROR` ("Could not find socketserver structure for port") and performs
no side effects: the registry is returned unchanged and no channel handler
is installed, no event queued. -/
theorem C7_client_port_not_found (ports : List Port) (port : Nat) (cb : String)
    (h0 : port = 0 → ports = [])
    (hn : ∀ p ∈ ports, p.targs.port ≠ port) :
    socketserverObjCmd_client ports port cb = (.error, ports, ⟨false, 0, false⟩) := by
  have hr : resolvePort ports port = port := by
    by_cases hp : port = 0
    · subst hp
      rw [h0 rfl]
      rfl
    · simp [resolvePort, hp]
  have hf : findPort ports port = none := findPort_eq_none_iff.mpr hn
  simp [socketserverObjCmd_client, hr, hf]

/-- C7 witness: registering a client for port 7777 when only port 9001 was
ever registered fails and leaves the registry unchanged. -/
theorem C7_client_port_not_found_witness :
    socketserverObjCmd_client [newPortEntry 9001] 7777 "handler" =
      (.error, [newPortEntry 9001], ⟨false, 0, false⟩) :=
  C7_client_port_not_found [newPortEntry 9001] 7777 "handler"
    (fun h => absurd h (by decide)) (by decide)

/-- C8: once the acceptor reaches its accept loop, no accept outcome
terminates the loop: every outcome of a finite schedule is processed (one
action each, so the action trace has the schedule's length), an `EINTR`
failure is silently retried, any other failure is logged and retried, and a
successful accept performs a `send_fd` of the descriptor and continues —
on a live socketpair the accepted descriptors are enqueued in FIFO order. -/
theorem C8_accept_loop_never_exits (t : Transport) (rs : List AcceptResult) :
    ((acceptLoop t rs).2).length = rs.length ∧
    List.Forall₂ ActionMatches rs (acceptLoop t rs).2 ∧
    (∀ q, (acceptLoop (.queue q) rs).1 = .queue (q ++ acceptedFds rs)) :=
  ⟨acceptLoop_length t rs, acceptLoop_forall2 t rs, fun q => acceptLoop_queue rs q⟩

/-- C1 counterexample: two connections (descriptors 7 and 8) pending after a
single `client` registration (guard armed once); however many readiness
events fire, exactly one callback occurs — not two as the claim requires —
because a successful drain leaves the guard down and every later event is
ignored. -/
theorem C1_counterexample :
    (eventLoop 4 ⟨1, .queue [7, 8], []⟩).callbacks = [(7 : Int)] ∧
    ¬(eventLoop 4 ⟨1, .queue [7, 8], []⟩).callbacks.length = 2 := by
  constructor
  · decide
  · decide

/-- C1 (amended): after a single `client` registration, only the first
accepted connection is delivered — the callback trace is the one-element
FIFO prefix of the pending queue, for any number of readiness events — and
when the guard is re-armed before each drain (one registration per
delivery), all N connections are delivered, in FIFO order, each with a
distinct handle when the descriptors are distinct. -/
theorem C1_single_shot_fifo (fds : List Nat) (k : Nat) (hk : 1 ≤ k) :
    (eventLoop k ⟨1, .queue fds, []⟩).callbacks =
      (fds.take 1).map (fun (n : Nat) => (n : Int)) ∧
    (fds.length ≤ k →
      (rearmLoop k ⟨1, .queue fds, []⟩).callbacks = fds.map (fun (n : Nat) => (n : Int)) ∧
      (fds.Nodup → ((rearmLoop k ⟨1, .queue fds, []⟩).callbacks).Nodup)) := by
  constructor
  · obtain ⟨m, rfl⟩ : ∃ m, k = m + 1 := ⟨k - 1, by omega⟩
    cases fds with
    | nil => simp [eventLoop_empty_armed]
    | cons f rest =>
        rw [eventLoop_succ, eventProc_drain]
        rw [eventLoop_inactive]
        simp
  · intro hlen
    have hcb := rearmLoop_callbacks k fds 1 [] hlen
    constructor
    · simpa using hcb
    · intro hnd
      rw [hcb]
      simp only [List.nil_append]
      have hinj : Function.Injective (fun n : Nat => (n : Int)) :=
        fun a b h => Int.natCast_inj.mp h
      exact List.Nodup.map hinj hnd

/-- C1 witness: with descriptors 3 and 9 pending, two events after one
registration deliver only 3; two events with re-arming deliver 3 then 9. -/
theorem C1_single_shot_fifo_witness :
    (eventLoop 2 ⟨1, .queue [3, 9], []⟩).callbacks = [(3 : Int)] ∧
    (rearmLoop 2 ⟨1, .queue [3, 9], []⟩).callbacks = [(3 : Int), (9 : Int)] := by
  have h := C1_single_shot_fifo [3, 9] 2 (by decide)
  exact ⟨by simpa using h.1, by simpa using (h.2 (by decide)).1⟩

/-- C3 counterexample: with bind failing, the acceptor thread exits before
its loop, yet the `server` registration that started it (run here with the
socketpair and thread creation succeeding) returns `TCL_OK` — the bind
failure is not returned synchronously to the caller as the claim states; a
listen failure does not even end the thread (its result is never checked). -/
theorem C3_counterexample :
    (socketserver_thread false true (.queue []) []).1 = .exitedBeforeLoop ∧
    (socketserver_thread true false (.queue []) []).1 = .enteredLoop ∧
    (socketserverObjCmd_server ⟨true, true, 3, 4⟩ [] 9001).1 = .ok ∧
    TclResult.ok ≠ TclResult.error :=
  ⟨rfl, rfl, rfl, by decide⟩

/-- C3 (amended): a bind failure is fatal to that acceptor's startup (the
detached thread returns before reaching its accept loop), but it is not
surfaced to the caller of the registration: the `server` call's result does
not depend on the bind or listen outcome and is `TCL_OK` whenever socketpair
and thread creation succeed; the listen result is ignored entirely. -/
theorem C3_bind_failure_not_synchronous (bindOk l1 l2 : Bool) (t : Transport)
    (rs : List AcceptResult) (env : ServerEnv) (ports : List Port) (port : Nat)
    (hsp : env.socketpairOk = true) (htc : env.threadCreateOk = true) :
    (socketserver_thread bindOk l1 t rs).1 = (socketserver_thread bindOk l2 t rs).1 ∧
    ((socketserver_thread bindOk l1 t rs).1 = .exitedBeforeLoop ↔ bindOk = false) ∧
    (socketserverObjCmd_server env ports port).1 = .ok := by
  refine ⟨?_, ?_, ?_⟩
  · cases bindOk <;> rfl
  · cases bindOk <;> simp [socketserver_thread]
  · have hok : ∀ (ps : List Port) (rp : Nat) (dat : Port),
        (serverStart env ps rp dat).1 = TclResult.ok := by
      intro ps rp dat
      simp [serverStart, hsp, htc]
    simp only [socketserverObjCmd_server]
    cases hf : findPort ports (resolvePort ports port) with
    | none => simpa using hok _ _ _
    | some data =>
        by_cases hd : data.targs.tin = -1
        · simpa [hd] using hok _ _ _
        · simp [hd]

/-- C3 witness: with bind failing the thread exits regardless of the listen
outcome, and a fresh `server 8080` registration still returns `TCL_OK`. -/
theorem C3_bind_failure_not_synchronous_witness :
    (socketserver_thread false true (.queue []) []).1 =
      (socketserver_thread false false (.queue []) []).1 ∧
    ((socketserver_thread false true (.queue []) []).1 = .exitedBeforeLoop ↔
      false = false) ∧
    (socketserverObjCmd_server ⟨true, true, 5, 6⟩ [] 8080).1 = .ok :=
  C3_bind_failure_not_synchronous false true false (.queue []) []
    ⟨true, true, 5, 6⟩ [] 8080 rfl rfl

/-- C6: the `server` operation is idempotent per port: a first registration
for a fresh (resolved) port appends the entry, creates the socketpair and
starts the acceptor exactly once, and every later `server` call for the same
port — under any OS environment — returns `TCL_OK`, leaves the registry
unchanged and creates no socketpair and no thread. -/
theorem C6_server_idempotent (env : ServerEnv) (ports : List Port) (port : Nat)
    (hfresh : findPort ports (resolvePort ports port) = none)
    (hsp : env.socketpairOk = true) (htc : env.threadCreateOk = true) :
    socketserverObjCmd_server env ports port =
      (.ok, ports ++ [startedEntry (resolvePort ports port) env], ⟨1, 1⟩) ∧
    (∀ env2,
      socketserverObjCmd_server env2
          (ports ++ [startedEntry (resolvePort ports port) env]) port =
        (.ok, ports ++ [startedEntry (resolvePort ports port) env], ⟨0, 0⟩)) := by
  have hkey : (newPortEntry (resolvePort ports port)).targs.port =
      resolvePort ports port := rfl
  constructor
  · simp only [socketserverObjCmd_server, hfresh]
    simp only [serverStart, hsp, htc]
    rw [updatePort_append_of_none hfresh hkey]
    rfl
  · intro env2
    have hrp2 : resolvePort (ports ++ [startedEntry (resolvePort ports port) env])
        port = resolvePort ports port :=
      resolvePort_append ports port _ rfl
    have hf2 : findPort (ports ++ [startedEntry (resolvePort ports port) env])
        (resolvePort ports port) = some (startedEntry (resolvePort ports port) env) := by
      rw [findPort_append_of_none _ hfresh]
      simp [findPort, startedEntry, newPortEntry]
    have htin : ¬((startedEntry (resolvePort ports port) env).targs.tin = -1) := by
      simp only [startedEntry]
      omega
    simp only [socketserverObjCmd_server, hrp2, hf2]
    simp [htin]

/-- C6 witness: `server 9001` on an empty registry starts one socketpair and
one acceptor; repeating it (even in an environment where every OS call would
fail) changes nothing and starts nothing. -/
theorem C6_server_idempotent_witness :
    socketserverObjCmd_server ⟨true, true, 3, 4⟩ [] 9001 =
      (.ok, [startedEntry 9001 ⟨true, true, 3, 4⟩], ⟨1, 1⟩) ∧
    socketserverObjCmd_server ⟨false, false, 0, 0⟩
        [startedEntry 9001 ⟨true, true, 3, 4⟩] 9001 =
      (.ok, [startedEntry 9001 ⟨true, true, 3, 4⟩], ⟨0, 0⟩) := by
  have h := C6_server_idempotent ⟨true, true, 3, 4⟩ [] 9001 rfl rfl rfl
  exact ⟨by simpa using h.1, by simpa using h.2 ⟨false, false, 0, 0⟩⟩

/-- C9: `have_channel` is assigned `0` inside the `if (!data->have_channel)`
branch and never set non-zero, so a `client` registration on an entry with
`have_channel = 0` succeeds, takes the branch (installing a channel handler),
and leaves `have_channel = 0` again — whence the immediately following
re-registration takes the branch and installs an additional handler too. -/
theorem C9_have_channel_never_set (ports : List Port) (port : Nat) (cb cb2 : String)
    (data : Port)
    (hfind : findPort ports (resolvePort ports port) = some data)
    (hch : data.have_channel = 0) :
    (socketserverObjCmd_client ports port cb).1 = .ok ∧
    (socketserverObjCmd_client ports port cb).2.2.handlersInstalled = 1 ∧
    (∃ d1,
      findPort (socketserverObjCmd_client ports port cb).2.1
        (resolvePort ports port) = some d1 ∧
      d1.have_channel = 0 ∧ d1.handlerInstalls = data.handlerInstalls + 1 ∧
      (socketserverObjCmd_client (socketserverObjCmd_client ports port cb).2.1
        port cb2).2.2.handlersInstalled = 1 ∧
      (∃ d2,
        findPort (socketserverObjCmd_client
          (socketserverObjCmd_client ports port cb).2.1 port cb2).2.1
          (resolvePort ports port) = some d2 ∧
        d2.have_channel = 0 ∧ d2.handlerInstalls = data.handlerInstalls + 2)) := by
  have hkey : data.targs.port = resolvePort ports port := findPort_some_key hfind
  have hkey1 : (clientUpdate data cb).targs.port = resolvePort ports port := by
    rw [clientUpdate_targs]
    exact hkey
  have hfields1 := clientUpdate_fields data cb hch
  rw [clientCmd_found ports port cb data hfind]
  have hf1 : findPort (updatePort ports (resolvePort ports port) (clientUpdate data cb))
      (resolvePort ports port) = some (clientUpdate data cb) :=
    findPort_updatePort_self hfind hkey1
  have hrp1 : resolvePort (updatePort ports (resolvePort ports port)
      (clientUpdate data cb)) port = resolvePort ports port :=
    resolvePort_updatePort port hkey1
  have hfind2 : findPort (updatePort ports (resolvePort ports port)
      (clientUpdate data cb))
      (resolvePort (updatePort ports (resolvePort ports port) (clientUpdate data cb))
        port) = some (clientUpdate data cb) := by
    rw [hrp1]
    exact hf1
  refine ⟨rfl, by simp [hch], clientUpdate data cb, hf1, hfields1.1, hfields1.2, ?_, ?_⟩
  · rw [clientCmd_found _ port cb2 _ hfind2]
    simp [hfields1.1]
  · have hkey2 : (clientUpdate (clientUpdate data cb) cb2).targs.port =
        resolvePort ports port := by
      rw [clientUpdate_targs, clientUpdate_targs]
      exact hkey
    have hfields2 := clientUpdate_fields (clientUpdate data cb) cb2 hfields1.1
    refine ⟨clientUpdate (clientUpdate data cb) cb2, ?_, hfields2.1, ?_⟩
    · rw [clientCmd_found _ port cb2 _ hfind2]
      simp only [hrp1]
      exact findPort_updatePort_self hf1 hkey2
    · rw [hfields2.2, hfields1.2]

/-- C9 witness: on the registry holding the fresh entry for port 9001, two
successive `client` registrations each install one more channel handler. -/
theorem C9_have_channel_never_set_witness :
    (socketserverObjCmd_client [newPortEntry 9001] 9001 "a").2.2.handlersInstalled
      = 1 ∧
    (socketserverObjCmd_client
      (socketserverObjCmd_client [newPortEntry 9001] 9001 "a").2.1
      9001 "b").2.2.handlersInstalled = 1 := by
  have h := C9_have_channel_never_set [newPortEntry 9001] 9001 "a" "b"
    (newPortEntry 9001) rfl rfl
  obtain ⟨-, h2, d1, -, -, -, h6, -⟩ := h
  exact ⟨h2, h6⟩

/-- C10: within the drain handler the guard is set to 1 only on the
failed-receive (no-data) path — if the post-state has the guard armed, the
outcome was `noData`; after a successful drain the guard is 0 and every
subsequent handler invocation is a no-op leaving the state fixed; and the
`client` registration path re-arms the guard (the updated entry has
`active = 1`). -/
theorem C10_guard_set_paths (s : BridgeState) (r : TclResult) (s2 : BridgeState)
    (o : DrainOutcome) (fd : Int) (k : Nat) (ports : List Port) (port : Nat)
    (cb : String) (data : Port)
    (hev : socketserver_EventProc s = (r, s2, o))
    (hfind : findPort ports (resolvePort ports port) = some data) :
    (s2.active = 1 → o = .noData) ∧
    (o = .drained fd → s2.active = 0 ∧ eventLoop k s2 = s2) ∧
    (∃ d1, findPort (socketserverObjCmd_client ports port cb).2.1
        (resolvePort ports port) = some d1 ∧ d1.active = 1) := by
  have hc3 : ∃ d1, findPort (socketserverObjCmd_client ports port cb).2.1
      (resolvePort ports port) = some d1 ∧ d1.active = 1 := by
    rw [clientCmd_found ports port cb data hfind]
    refine ⟨clientUpdate data cb, ?_, clientUpdate_active data cb⟩
    exact findPort_updatePort_self hfind
      (by rw [clientUpdate_targs]; exact findPort_some_key hfind)
  obtain ⟨a, t, cbs⟩ := s
  by_cases ha : a = 0
  · subst ha
    rw [eventProc_inactive] at hev
    simp only [Prod.mk.injEq] at hev
    obtain ⟨-, h2, h3⟩ := hev
    subst h2
    subst h3
    refine ⟨?_, ?_, hc3⟩
    · intro h
      simp at h
    · intro h
      simp at h
  · cases t with
    | broken =>
        rw [eventProc_armed_broken a ha] at hev
        simp only [Prod.mk.injEq] at hev
        obtain ⟨-, h2, h3⟩ := hev
        subst h2
        subst h3
        refine ⟨fun _ => rfl, ?_, hc3⟩
        intro h
        simp at h
    | queue fds =>
        cases fds with
        | nil =>
            rw [eventProc_armed_empty a ha] at hev
            simp only [Prod.mk.injEq] at hev
            obtain ⟨-, h2, h3⟩ := hev
            subst h2
            subst h3
            refine ⟨fun _ => rfl, ?_, hc3⟩
            intro h
            simp at h
        | cons f rest =>
            rw [eventProc_armed_drain a ha] at hev
            simp only [Prod.mk.injEq] at hev
            obtain ⟨-, h2, h3⟩ := hev
            subst h2
            subst h3
            refine ⟨?_, ?_, hc3⟩
            · intro h
              simp at h
            · intro h
              exact ⟨rfl, eventLoop_inactive k _ _⟩

/-- C10 witness: draining descriptor 5 leaves the guard down and three more
handler invocations change nothing, while a `client` registration on the
port-9001 entry re-arms the guard. -/
theorem C10_guard_set_paths_witness :
    ((⟨0, .queue [], [(5 : Int)]⟩ : BridgeState).active = 1 →
      DrainOutcome.drained 5 = .noData) ∧
    (DrainOutcome.drained 5 = .drained 5 →
      (⟨0, .queue [], [(5 : Int)]⟩ : BridgeState).active = 0 ∧
      eventLoop 3 ⟨0, .queue [], [(5 : Int)]⟩ = ⟨0, .queue [], [(5 : Int)]⟩) ∧
    (∃ d1, findPort (socketserverObjCmd_client [newPortEntry 9001] 9001 "h").2.1
        (resolvePort [newPortEntry 9001] 9001) = some d1 ∧ d1.active = 1) :=
  C10_guard_set_paths ⟨1, .queue [5], []⟩ .ok ⟨0, .queue [], [(5 : Int)]⟩
    (.drained 5) 5 3 [newPortEntry 9001] 9001 "h" (newPortEntry 9001)
    (by decide) (by decide)

end SocketServerTcl
